import Mathlib

/-!
Shallow embedding of the `uran_fast_rtc` WebRTC recording subsystem
(`fast_rtc/handlers/webrtc_handler.py` and `fast_rtc/handlers/async_workers.py`)
together with proofs about the frozen claims C1..C10.

The handler (`UranEchoHandler`) is modelled as a pure state record; each of its
methods becomes a function `Handler → ... → Handler × Eff`, where `Eff` collects
the observable side effects of one call: log lines (with their level), messages
sent over the DataChannel, and task-lifecycle events (worker spawn, await,
cancellation, writer release).  The three async workers of `async_workers.py`
are modelled as pure functions of the list of items they drain from their queue.
-/

namespace UranFastRtc

/-! ## Constants (`constants.py`) -/

/-- `StreamMode` from `constants.py`: LIVE / RECORDING / REPLAYING. -/
inductive StreamMode
  | LIVE
  | RECORDING
  | REPLAYING
deriving DecidableEq, Repr

/-- Modelled from the spec: `AsyncTaskConstants` is imported by both handler
modules from `constants`, but no definition of it exists under `src/`
(`constants.py` only defines `StreamMode`, `MessageType`, `VideoCodec`,
`VideoConstants`, `AudioConstants`, `PathConstants`).  The spec says the
recording queues are bounded and that the drop log is rate limited ("log every
Nth drop"); the exact numeric values are irrelevant to the claims, so we pick
representative positive constants. -/
def VIDEO_RECORDING_QUEUE_SIZE : Nat := 100

/-- Modelled from the spec: bounded audio-recording queue capacity (see
`VIDEO_RECORDING_QUEUE_SIZE`). -/
def AUDIO_RECORDING_QUEUE_SIZE : Nat := 200

/-- Modelled from the spec: bounded frame-save queue capacity (see
`VIDEO_RECORDING_QUEUE_SIZE`). -/
def FRAME_SAVE_QUEUE_SIZE : Nat := 10

/-- Modelled from the spec: video worker batch size ("pop up to BATCH_SIZE
items in one pass"). -/
def VIDEO_BATCH_SIZE : Nat := 10

/-- Modelled from the spec: "log every Nth drop, not every drop". -/
def DROPPED_FRAME_LOG_INTERVAL : Nat := 30

/-! ## Media data -/

/-- A decoded video frame: resolution plus an abstract pixel payload
(`frame.shape[:2]` gives `(height, width)`; `pix` stands for the pixel data). -/
structure VideoFrame where
  width : Nat
  height : Nat
  pix : Nat
deriving DecidableEq, Repr

/-- An audio frame is a sample array (`np.ndarray` of samples). -/
abbrev AudioData := List Int

/-- `cv2.resize(frame, (w, h))`: the payload is kept abstract, the resolution
becomes the target. -/
def resizeTo (t : Nat × Nat) (f : VideoFrame) : VideoFrame :=
  { width := t.1, height := t.2, pix := f.pix }

/-- A frame resized only when its resolution differs from the target, as in
`VideoRecordingWorker._write_frames_sync`. -/
def fitTo (t : Nat × Nat) (f : VideoFrame) : VideoFrame :=
  if f.width ≠ t.1 ∨ f.height ≠ t.2 then resizeTo t f else f

/-! ## Bounded queues (`asyncio.Queue(maxsize=...)`) -/

/-- A bounded `asyncio.Queue`: capacity plus current items, head = front. -/
structure BQueue (α : Type) where
  cap : Nat
  items : List α
deriving DecidableEq, Repr

/-- `qsize()`. -/
def BQueue.size (q : BQueue α) : Nat := q.items.length

/-- `full()`: with `maxsize > 0`, the queue is full when `qsize ≥ maxsize`
(`maxsize ≤ 0` means unbounded in asyncio). -/
def BQueue.isFull (q : BQueue α) : Bool :=
  decide (0 < q.cap) && decide (q.cap ≤ q.items.length)

/-- `put_nowait`: `none` models the raised `asyncio.QueueFull`. -/
def BQueue.putNowait (q : BQueue α) (a : α) : Option (BQueue α) :=
  if q.isFull then none else some { q with items := q.items ++ [a] }

/-- Enqueue a whole list of produced items via `put_nowait`, counting how many
were dropped because the queue was full (the producer-side drop policy). -/
def enqueueAll (q : BQueue α) : List α → BQueue α × Nat
  | [] => (q, 0)
  | a :: rest =>
    match q.putNowait a with
    | some q' => enqueueAll q' rest
    | none =>
      let (q'', d) := enqueueAll q rest
      (q'', d + 1)

/-! ## Observable effects -/

/-- Python logging levels used by the handler. -/
inductive LogLevel
  | info
  | warning
  | error
deriving DecidableEq, Repr

/-- The individual log lines of the two modules, as abstract tags (payload
arguments keep the data that the claims talk about). -/
inductive LogMsg
  | receivedMessage
  | jsonDecodeFailed
  | videoStreamEstablished (w h : Nat)
  | resolutionChanged (oldW oldH newW newH : Nat)
  | videoQueueUsageHigh
  | videoDropWarn (dropped : Nat)
  | audioQueueFullDrop
  | receivedStopRecordRequest
  | startAudioRecordingLog
  | stopAudioRecordingLog
  | frameCaptureAlreadyRunning
  | videoNotReadyForCapture
  | startFrameCaptureLog
  | frameCaptureNotRunning
  | stopFrameCaptureLog (saved : Nat)
  | frameSaveQueueFull
  | noVideoFrameForCapture
  | videoRecordingAlreadyRunning
  | videoNotReadyForRecording
  | startVideoRecordingLog
  | startVideoRecordingFailed
  | videoRecordingNotRunning
  | stopVideoRecordingLog (frames : Nat)
  | replayFinishedLog
  | audioWorkerDone (frames : Nat)
  | audioWorkerNoFrames
  | frameSavedLog (ts seq : Nat)
deriving DecidableEq, Repr

/-- One emitted log line. -/
structure LogEntry where
  level : LogLevel
  msg : LogMsg
deriving DecidableEq, Repr

/-- `MessageType` status values sent back over the DataChannel. -/
inductive MsgType
  | status
  | saved
  | frameCaptureStatus
  | frameSavedMsg
  | videoRecordingStatus
deriving DecidableEq, Repr

/-- Payloads of the server→client status messages. -/
inductive ChanText
  | recordingStarted
  | recordingStoppedReplaying
  | replayFinished
  | notReadyRetry
  | frameCaptureStarted
  | frameCaptureStopped (saved : Nat)
  | videoRecordingStarted
  | videoRecordingStartFailed
  | videoRecordingStopped (frames : Nat) (path : Option String)
deriving DecidableEq, Repr

/-- One DataChannel message sent by the server (`self.channel.send(...)`). -/
structure ChanMsg where
  type : MsgType
  payload : ChanText
deriving DecidableEq, Repr

/-- The three async worker tasks owned by one handler. -/
inductive WorkerName
  | videoRecording
  | audioRecording
  | frameSave
deriving DecidableEq, Repr

/-- Task-lifecycle events performed by a handler method. -/
inductive WEvent
  | spawnWorker (w : WorkerName)
  | awaitWorker (w : WorkerName)
  | cancelWorker (w : WorkerName)
  | spawnCaptureLoop
  | cancelCaptureLoop
  | disableVideoRecording
  | releaseVideoWriter
deriving DecidableEq, Repr

/-- The observable side effects of one handler call. -/
structure Eff where
  logs : List LogEntry
  sends : List ChanMsg
  events : List WEvent
deriving DecidableEq, Repr

/-- No effects. -/
def Eff.nil : Eff := ⟨[], [], []⟩

/-! ## Handler state (`UranEchoHandler.__init__`) -/

/-- `cv2.VideoWriter`: whether `isOpened()` holds and the target resolution it
was created with. -/
structure VideoWriter where
  opened : Bool
  targetW : Nat
  targetH : Nat
deriving DecidableEq, Repr

/-- The mutable state of one `UranEchoHandler`.  Worker-task fields are `Bool`
flags recording whether the corresponding `asyncio.Task` field is non-`None`
(i.e. a task is still attached).  `hasChannel` models `self.channel` being
set. -/
structure Handler where
  mode : StreamMode
  recordedAudioFrames : List AudioData
  replayIndex : Nat
  sampleRate : Nat
  frameCaptureEnabled : Bool
  latestVideoFrame : Option VideoFrame
  videoResolution : Option (Nat × Nat)
  frameCaptureTask : Bool
  frameCount : Nat
  totalFramesReceived : Nat
  videoRecordingEnabled : Bool
  videoWriter : Option VideoWriter
  videoRecordingPath : Option String
  recordedVideoFrames : Nat
  videoRecordingQueue : BQueue VideoFrame
  videoRecordingWorker : Bool
  audioRecordingQueue : BQueue AudioData
  audioRecordingWorker : Bool
  frameSaveQueue : BQueue VideoFrame
  frameSaveWorker : Bool
  videoDroppedFrames : Nat
  audioDroppedFrames : Nat
  frameSaveDropped : Nat
  videoQueueMaxSize : Nat
  audioQueueMaxSize : Nat
  audioQueue : List (Nat × AudioData)
  videoQueue : List VideoFrame
  hasChannel : Bool
deriving DecidableEq, Repr

/-- The freshly constructed handler (after `__init__` and `start_up`, with the
DataChannel listener bound). -/
def initState : Handler where
  mode := .LIVE
  recordedAudioFrames := []
  replayIndex := 0
  sampleRate := 16000
  frameCaptureEnabled := false
  latestVideoFrame := none
  videoResolution := none
  frameCaptureTask := false
  frameCount := 0
  totalFramesReceived := 0
  videoRecordingEnabled := false
  videoWriter := none
  videoRecordingPath := none
  recordedVideoFrames := 0
  videoRecordingQueue := ⟨VIDEO_RECORDING_QUEUE_SIZE, []⟩
  videoRecordingWorker := false
  audioRecordingQueue := ⟨AUDIO_RECORDING_QUEUE_SIZE, []⟩
  audioRecordingWorker := false
  frameSaveQueue := ⟨FRAME_SAVE_QUEUE_SIZE, []⟩
  frameSaveWorker := false
  videoDroppedFrames := 0
  audioDroppedFrames := 0
  frameSaveDropped := 0
  videoQueueMaxSize := 0
  audioQueueMaxSize := 0
  audioQueue := []
  videoQueue := []
  hasChannel := true

/-! ## File name helpers -/

/-- `f"recording_{timestamp}.wav"` from `start_audio_recording`. -/
def recordingFilePath (ts : Nat) : String :=
  "recording_" ++ toString ts ++ ".wav"

/-- `f"frame_{timestamp}.png"` from `start_frame_capture`: the single `filepath`
handed to the frame-save worker for the whole capture session. -/
def frameCaptureFilePath (ts : Nat) : String :=
  "frame_" ++ toString ts ++ ".png"

/-- `f"frame_{timestamp}_{frame_number:04d}.png"` computed (and only logged) by
`FrameSaveWorker._save_frame_sync`. -/
def frameLogFilename (ts seq : Nat) : String :=
  "frame_" ++ toString ts ++ "_" ++ toString seq ++ ".png"

/-- `f"video_{timestamp}.avi"` from `start_video_recording`. -/
def videoFilePath (ts : Nat) : String :=
  "video_" ++ toString ts ++ ".avi"

/-! ## Handler operations (`webrtc_handler.py`) -/

/-- `UranEchoHandler.video_receive`: count the frame, track resolution changes
(warning on change), update the capture cache, non-blockingly enqueue a copy
for the video-recording worker (drop + counter on full, rate-limited warning),
and always enqueue for the live echo. -/
def videoReceive (s : Handler) (f : VideoFrame) : Handler × Eff :=
  let s := { s with totalFramesReceived := s.totalFramesReceived + 1 }
  let newRes : Nat × Nat := (f.width, f.height)
  let (s, resLogs) :=
    if s.videoResolution ≠ some newRes then
      match s.videoResolution with
      | none =>
        ({ s with videoResolution := some newRes },
         [⟨.info, .videoStreamEstablished f.width f.height⟩])
      | some (ow, oh) =>
        ({ s with videoResolution := some newRes },
         [⟨.warning, .resolutionChanged ow oh f.width f.height⟩])
    else (s, [])
  let s :=
    if s.frameCaptureEnabled then { s with latestVideoFrame := some f } else s
  let (s, recLogs) :=
    if s.videoRecordingEnabled then
      match s.videoRecordingQueue.putNowait f with
      | some q' =>
        let s := { s with
          videoRecordingQueue := q'
          recordedVideoFrames := s.recordedVideoFrames + 1
          videoQueueMaxSize := max s.videoQueueMaxSize q'.size }
        (s, if 10 * q'.size > 8 * q'.cap then [⟨.warning, .videoQueueUsageHigh⟩] else [])
      | none =>
        let d := s.videoDroppedFrames + 1
        ({ s with videoDroppedFrames := d },
         if d % DROPPED_FRAME_LOG_INTERVAL = 0 then [⟨.warning, .videoDropWarn d⟩] else [])
    else (s, [])
  ({ s with videoQueue := s.videoQueue ++ [f] },
   { logs := resLogs ++ recLogs, sends := [], events := [] })

/-- `UranEchoHandler.receive` (audio): update the sample rate; in RECORDING
mode, non-blockingly enqueue a copy for the audio worker (drop + counter on
full) and append to the in-memory replay list; always enqueue for the live
echo. -/
def audioReceive (s : Handler) (sr : Nat) (a : AudioData) : Handler × Eff :=
  let s := { s with sampleRate := sr }
  let (s, logs) :=
    if s.mode = .RECORDING then
      let (s, l) :=
        match s.audioRecordingQueue.putNowait a with
        | some q' =>
          ({ s with
              audioRecordingQueue := q'
              audioQueueMaxSize := max s.audioQueueMaxSize q'.size }, ([] : List LogEntry))
        | none =>
          let d := s.audioDroppedFrames + 1
          ({ s with audioDroppedFrames := d },
           if d % 100 = 0 then [⟨.warning, .audioQueueFullDrop⟩] else [])
      ({ s with recordedAudioFrames := s.recordedAudioFrames ++ [a] }, l)
    else (s, [])
  ({ s with audioQueue := s.audioQueue ++ [(sr, a)] },
   { logs := logs, sends := [], events := [] })

/-- `UranEchoHandler.emit`: in REPLAYING mode pop the next replay frame (and
drain the live queue); once the replay buffer is exhausted flip back to LIVE,
notify the client, and fall through to the live path.  The live path
(`wait_for_item`) is modelled as popping the head of the live audio queue
(`none` when the queue stays empty past the timeout). -/
def emit (s : Handler) : Handler × Eff × Option (Nat × AudioData) :=
  if s.mode = .REPLAYING then
    if h : s.replayIndex < s.recordedAudioFrames.length then
      ({ s with replayIndex := s.replayIndex + 1, audioQueue := [] },
       Eff.nil,
       some (s.sampleRate, s.recordedAudioFrames.get ⟨s.replayIndex, h⟩))
    else
      let s' := { s with mode := .LIVE, replayIndex := 0 }
      let eff : Eff :=
        { logs := [⟨.info, .replayFinishedLog⟩]
          sends := if s.hasChannel then [⟨.status, .replayFinished⟩] else []
          events := [] }
      match s'.audioQueue with
      | [] => (s', eff, none)
      | x :: rest => ({ s' with audioQueue := rest }, eff, some x)
  else
    match s.audioQueue with
    | [] => (s, Eff.nil, none)
    | x :: rest => ({ s with audioQueue := rest }, Eff.nil, some x)

/-- `UranEchoHandler.start_audio_recording`: unconditionally switch to
RECORDING, reset the replay list, and spawn the audio worker on
`recording_{timestamp}.wav`. -/
def startAudioRecording (s : Handler) (_now : Nat) : Handler × Eff :=
  ({ s with
      mode := .RECORDING
      recordedAudioFrames := []
      audioRecordingWorker := true },
   { logs := [⟨.info, .startAudioRecordingLog⟩]
     sends := if s.hasChannel then [⟨.status, .recordingStarted⟩] else []
     events := [.spawnWorker .audioRecording] })

/-- `UranEchoHandler._stop_audio_recording_async`: if RECORDING, flip to
REPLAYING, wait for the queue to drain, await the worker with a timeout
(force-cancelling it on expiry, `timedOut`), drop the task reference, and
notify the client. -/
def stopAudioRecordingAsync (s : Handler) (timedOut : Bool) : Handler × Eff :=
  if s.mode = .RECORDING then
    ({ s with mode := .REPLAYING, replayIndex := 0, audioRecordingWorker := false },
     { logs := [⟨.info, .stopAudioRecordingLog⟩]
       sends := if s.hasChannel then [⟨.status, .recordingStoppedReplaying⟩] else []
       events :=
         if s.audioRecordingWorker then
           if timedOut then [.awaitWorker .audioRecording, .cancelWorker .audioRecording]
           else [.awaitWorker .audioRecording]
         else [] })
  else (s, Eff.nil)

/-- `UranEchoHandler.stop_audio_recording` (sync entry): log the request at
*info* level, then do nothing unless RECORDING; when RECORDING, spawn the async
stop task (the returned `Bool`). -/
def stopAudioRecording (s : Handler) : Handler × Eff × Bool :=
  if s.mode = .RECORDING then
    (s, { logs := [⟨.info, .receivedStopRecordRequest⟩], sends := [], events := [] }, true)
  else
    (s, { logs := [⟨.info, .receivedStopRecordRequest⟩], sends := [], events := [] }, false)

/-- `UranEchoHandler.start_frame_capture`: ignore a duplicate start; reject
with a "not ready" status while the resolution is unknown; otherwise enable
capture, reset the counter, and spawn the save worker plus the cadence loop. -/
def startFrameCapture (s : Handler) (_now : Nat) : Handler × Eff :=
  if s.frameCaptureEnabled then
    (s, { logs := [⟨.warning, .frameCaptureAlreadyRunning⟩], sends := [], events := [] })
  else
    match s.videoResolution with
    | none =>
      (s, { logs := [⟨.warning, .videoNotReadyForCapture⟩]
            sends := if s.hasChannel then [⟨.frameCaptureStatus, .notReadyRetry⟩] else []
            events := [] })
    | some _ =>
      ({ s with
          frameCaptureEnabled := true
          frameCount := 0
          frameSaveWorker := true
          frameCaptureTask := true },
       { logs := [⟨.info, .startFrameCaptureLog⟩]
         sends := if s.hasChannel then [⟨.frameCaptureStatus, .frameCaptureStarted⟩] else []
         events := [.spawnWorker .frameSave, .spawnCaptureLoop] })

/-- `UranEchoHandler.stop_frame_capture`: warn and ignore when not running;
otherwise disable the flag and cancel the cadence loop task (the save worker is
left to exit on its own). -/
def stopFrameCapture (s : Handler) : Handler × Eff :=
  if s.frameCaptureEnabled then
    ({ s with frameCaptureEnabled := false, frameCaptureTask := false },
     { logs := [⟨.info, .stopFrameCaptureLog s.frameCount⟩]
       sends := if s.hasChannel then [⟨.frameCaptureStatus, .frameCaptureStopped s.frameCount⟩] else []
       events := if s.frameCaptureTask then [.cancelCaptureLoop] else [] })
  else
    (s, { logs := [⟨.warning, .frameCaptureNotRunning⟩], sends := [], events := [] })

/-- One iteration of `UranEchoHandler.frame_capture_loop` (after the cadence
sleep): push the cached latest frame into the save queue, dropping (with a
counter and warning) when the queue is full. -/
def frameCaptureTick (s : Handler) : Handler × Eff :=
  if s.frameCaptureEnabled then
    match s.latestVideoFrame with
    | some f =>
      match s.frameSaveQueue.putNowait f with
      | some q' => ({ s with frameSaveQueue := q' }, Eff.nil)
      | none =>
        ({ s with frameSaveDropped := s.frameSaveDropped + 1 },
         { logs := [⟨.warning, .frameSaveQueueFull⟩], sends := [], events := [] })
    | none =>
      (s, { logs := [⟨.warning, .noVideoFrameForCapture⟩], sends := [], events := [] })
  else (s, Eff.nil)

/-- `UranEchoHandler.start_video_recording`: ignore a duplicate start; reject
with a "not ready" status while the resolution is unknown; otherwise create the
`VideoWriter` at the current resolution and, if it opened, enable recording and
spawn the video worker; a writer that failed to open raises, which is caught
and reported (`openOk` models `isOpened()`). -/
def startVideoRecording (s : Handler) (now : Nat) (openOk : Bool) : Handler × Eff :=
  if s.videoRecordingEnabled then
    (s, { logs := [⟨.warning, .videoRecordingAlreadyRunning⟩], sends := [], events := [] })
  else
    match s.videoResolution with
    | none =>
      (s, { logs := [⟨.warning, .videoNotReadyForRecording⟩]
            sends := if s.hasChannel then [⟨.videoRecordingStatus, .notReadyRetry⟩] else []
            events := [] })
    | some (w, h) =>
      let s := { s with
        videoRecordingPath := some (videoFilePath now)
        videoWriter := some ⟨openOk, w, h⟩ }
      if openOk then
        ({ s with
            videoRecordingEnabled := true
            recordedVideoFrames := 0
            videoRecordingWorker := true },
         { logs := [⟨.info, .startVideoRecordingLog⟩]
           sends := if s.hasChannel then [⟨.videoRecordingStatus, .videoRecordingStarted⟩] else []
           events := [.spawnWorker .videoRecording] })
      else
        (s, { logs := [⟨.error, .startVideoRecordingFailed⟩]
              sends := if s.hasChannel then [⟨.videoRecordingStatus, .videoRecordingStartFailed⟩] else []
              events := [] })

/-- `UranEchoHandler._stop_video_recording_async`: if enabled, first clear the
flag, wait for the queue to drain, await the worker with a timeout (cancelling
it on expiry), drop the task reference, and only then release the writer and
notify the client. -/
def stopVideoRecordingAsync (s : Handler) (timedOut : Bool) : Handler × Eff :=
  if s.videoRecordingEnabled then
    let s1 := { s with videoRecordingEnabled := false }
    let awaitEvents : List WEvent :=
      if s1.videoRecordingWorker then
        if timedOut then [.awaitWorker .videoRecording, .cancelWorker .videoRecording]
        else [.awaitWorker .videoRecording]
      else []
    let s2 := { s1 with videoRecordingWorker := false }
    let (s3, releaseEvents) :=
      match s2.videoWriter with
      | some _ => ({ s2 with videoWriter := none }, [WEvent.releaseVideoWriter])
      | none => (s2, ([] : List WEvent))
    (s3,
     { logs := [⟨.info, .stopVideoRecordingLog s.recordedVideoFrames⟩]
       sends :=
         if s.hasChannel then
           [⟨.videoRecordingStatus,
             .videoRecordingStopped s.recordedVideoFrames s.videoRecordingPath⟩]
         else []
       events := WEvent.disableVideoRecording :: (awaitEvents ++ releaseEvents) })
  else (s, Eff.nil)

/-- `UranEchoHandler.stop_video_recording` (sync entry): warn and ignore when
not recording; otherwise spawn the async stop task (the returned `Bool`). -/
def stopVideoRecording (s : Handler) : Handler × Eff × Bool :=
  if s.videoRecordingEnabled then (s, Eff.nil, true)
  else
    (s, { logs := [⟨.warning, .videoRecordingNotRunning⟩], sends := [], events := [] }, false)

/-! ## Control-channel dispatch (`text_receive`) -/

/-- JSON values, as produced by `json.loads`. -/
inductive Json
  | null
  | bool (b : Bool)
  | num (n : Int)
  | str (s : String)
  | arr (xs : List Json)
  | obj (kvs : List (String × Json))

/-- An inbound DataChannel text message: either text that `json.loads` rejects
(raising `JSONDecodeError`) or the parsed JSON value. -/
inductive TextMsg
  | notJson (raw : String)
  | json (j : Json)

/-- Python exceptions that can escape the modelled code. -/
inductive PyErr
  | attributeError
deriving DecidableEq, Repr

/-- `data.get("action")` in Python: only a dict has `.get`; on any other JSON
value the attribute lookup raises `AttributeError`. -/
def Json.getField (j : Json) (key : String) : Except PyErr (Option Json) :=
  match j with
  | .obj kvs =>
    .ok ((kvs.find? (fun kv => kv.1 = key)).map (fun kv => kv.2))
  | _ => .error .attributeError

/-- The `if action == ... elif ...` dispatch table of `text_receive`. -/
def dispatchAction (s : Handler) (action : Option Json) (now : Nat) (openOk : Bool) :
    Handler × Eff :=
  match action with
  | some (.str a) =>
    if a = "start_record" then startAudioRecording s now
    else if a = "stop_record" then
      let r := stopAudioRecording s
      (r.1, r.2.1)
    else if a = "start_frame_capture" then startFrameCapture s now
    else if a = "stop_frame_capture" then stopFrameCapture s
    else if a = "start_video_recording" then startVideoRecording s now openOk
    else if a = "stop_video_recording" then
      let r := stopVideoRecording s
      (r.1, r.2.1)
    else (s, Eff.nil)
  | _ => (s, Eff.nil)

/-- `UranEchoHandler.text_receive`: log the message, `json.loads` it
(`JSONDecodeError` is caught and logged), read `data.get("action")` (an
`AttributeError` from a non-dict value is NOT caught and propagates), then
dispatch.  `now` is the wall clock, `openOk` models `VideoWriter.isOpened`. -/
def textReceive (s : Handler) (m : TextMsg) (now : Nat) (openOk : Bool) :
    Except PyErr (Handler × Eff) :=
  let recvLog : LogEntry := ⟨.info, .receivedMessage⟩
  match m with
  | .notJson _ =>
    .ok (s, { logs := [recvLog, ⟨.error, .jsonDecodeFailed⟩], sends := [], events := [] })
  | .json j =>
    match j.getField "action" with
    | .error e => .error e
    | .ok action =>
      let (s', eff) := dispatchAction s action now openOk
      .ok (s', { eff with logs := recvLog :: eff.logs })

/-! ## Connection teardown (`shutdown` / `_shutdown_async_workers`) -/

/-- `UranEchoHandler._shutdown_async_workers`, translated as it stands in the
source: it builds `tasks_to_cancel` from the three worker-task fields and
computes `all_empty`, but neither is ever used; the body of its wait loop is
audio-replay logic (a copy of `emit`) that either returns a replayed frame
early or flips the mode to LIVE, and after the wall-clock timeout the function
falls through to waiting on the live audio queue.  `iters` is the number of
loop iterations the wall clock admits before `SHUTDOWN_WAIT_TIMEOUT`; no task
is awaited or cancelled on any path. -/
def shutdownAsyncWorkers (s : Handler) (iters : Nat) :
    Handler × Eff × Option (Nat × AudioData) :=
  if iters = 0 then
    match s.audioQueue with
    | [] => (s, Eff.nil, none)
    | x :: rest => ({ s with audioQueue := rest }, Eff.nil, some x)
  else
    if h : s.replayIndex < s.recordedAudioFrames.length then
      ({ s with replayIndex := s.replayIndex + 1, audioQueue := [] },
       Eff.nil,
       some (s.sampleRate, s.recordedAudioFrames.get ⟨s.replayIndex, h⟩))
    else
      let s' := { s with mode := .LIVE, replayIndex := 0 }
      let eff : Eff :=
        { logs := List.replicate iters ⟨.info, .replayFinishedLog⟩
          sends :=
            if s.hasChannel then List.replicate iters ⟨.status, .replayFinished⟩ else []
          events := [] }
      match s'.audioQueue with
      | [] => (s', eff, none)
      | x :: rest => ({ s' with audioQueue := rest }, eff, some x)

/-- Sequential composition of effects. -/
def Eff.app (a b : Eff) : Eff :=
  ⟨a.logs ++ b.logs, a.sends ++ b.sends, a.events ++ b.events⟩

/-- `UranEchoHandler.shutdown`: stop frame capture if enabled, stop video
recording if enabled, stop audio recording if RECORDING, then call
`_shutdown_async_workers` (statistics logging omitted as pure logging). -/
def shutdownHandler (s : Handler) (timedOut : Bool) (iters : Nat) :
    Handler × Eff × Option (Nat × AudioData) :=
  let r1 := if s.frameCaptureEnabled then stopFrameCapture s else (s, Eff.nil)
  let r2 :=
    if r1.1.videoRecordingEnabled then stopVideoRecordingAsync r1.1 timedOut
    else (r1.1, Eff.nil)
  let r3 :=
    if r2.1.mode = .RECORDING then stopAudioRecordingAsync r2.1 timedOut
    else (r2.1, Eff.nil)
  let r4 := shutdownAsyncWorkers r3.1 iters
  (r4.1, ((r1.2.app r2.2).app r3.2).app r4.2.1, r4.2.2)

/-! ## Async workers (`async_workers.py`) -/

/-- `VideoRecordingWorker._write_frames_sync`: defensive resolution check, then
each frame is resized to the fixed target resolution when it differs and
appended to the writer; returns the written frames and their count. -/
def writeFramesSync (target : Nat × Nat) (frames : List VideoFrame) :
    List VideoFrame × Nat :=
  if target.1 = 0 ∨ target.2 = 0 then ([], 0)
  else
    let written := frames.map (fitTo target)
    (written, written.length)

/-- The drain loop of `VideoRecordingWorker.run` once the producer has stopped:
pop up to `VIDEO_BATCH_SIZE` frames per pass and write each batch with
`_write_frames_sync`; the written output is the concatenation of the batches. -/
def videoWorkerRun (target : Nat × Nat) (queued : List VideoFrame) :
    List VideoFrame :=
  match queued with
  | [] => []
  | a :: rest =>
    (writeFramesSync target ((a :: rest).take VIDEO_BATCH_SIZE)).1 ++
      videoWorkerRun target ((a :: rest).drop VIDEO_BATCH_SIZE)
termination_by queued.length
decreasing_by
  simp [List.length_drop, VIDEO_BATCH_SIZE]
  omega

/-- `AudioRecordingWorker._save_audio_sync`: `np.concatenate(frames)` written
to `filepath` — the file payload is the concatenation of the frames in order. -/
def saveAudioSync (frames : List AudioData) (path : String) : String × List Int :=
  (path, frames.flatten)

/-- The result of one `AudioRecordingWorker.run` session. -/
structure AudioWorkerResult where
  file : Option (String × List Int)
  frameCount : Nat
  logs : List LogEntry
deriving DecidableEq, Repr

/-- `AudioRecordingWorker.run`: read frames (FIFO) until the read timeout,
then, if any frames were read, save the concatenation and return the count;
with zero frames, write nothing and log the "no frames to save" warning.
`queued` is the list of frames the worker drains before timing out. -/
def audioWorkerRun (queued : List AudioData) (path : String) : AudioWorkerResult :=
  match queued with
  | [] => { file := none, frameCount := 0, logs := [⟨.warning, .audioWorkerNoFrames⟩] }
  | _ =>
    { file := some (saveAudioSync queued path)
      frameCount := queued.length
      logs := [⟨.info, .audioWorkerDone queued.length⟩] }

/-- The disk effect of one `FrameSaveWorker._save_frame_sync` call: the file it
actually writes (`image.save(filepath)` — always the fixed session path) and
the per-frame name it computes and logs (`frame_{timestamp}_{seq:04d}.png`,
used only in the log line). -/
structure FrameSaveRecord where
  savedPath : String
  loggedTs : Nat
  loggedSeq : Nat
deriving DecidableEq, Repr

/-- `FrameSaveWorker._save_frame_sync` for one frame. -/
def saveFrameSync (_f : VideoFrame) (frameNumber : Nat) (now : Nat)
    (filepath : String) : FrameSaveRecord :=
  { savedPath := filepath, loggedTs := now, loggedSeq := frameNumber }

/-- The drain loop of `FrameSaveWorker.run`: each drained frame is saved with
the externally supplied counter, which is then incremented; returns the save
records in order together with the final counter value. -/
def frameSaveRun (queued : List VideoFrame) (count : Nat) (now : Nat)
    (filepath : String) : List FrameSaveRecord × Nat :=
  match queued with
  | [] => ([], count)
  | f :: rest =>
    let r := saveFrameSync f count now filepath
    let (rs, c) := frameSaveRun rest (count + 1) now filepath
    (r :: rs, c)

/-! ## Step relation and reachable states

One step is either an inbound media callback, an audio emission, a control
message delivered to `text_receive` (only when it returns normally), the body
of one of the two async stop tasks it may spawn, or one cadence tick of the
frame-capture loop. -/

/-- One asynchronous step of a live connection. -/
inductive Step : Handler → Handler → Prop
  | videoRecv (s : Handler) (f : VideoFrame) : Step s (videoReceive s f).1
  | audioRecv (s : Handler) (sr : Nat) (a : AudioData) : Step s (audioReceive s sr a).1
  | emitStep (s : Handler) : Step s (emit s).1
  | ctrl (s : Handler) (m : TextMsg) (now : Nat) (openOk : Bool) (s' : Handler) (eff : Eff) :
      textReceive s m now openOk = .ok (s', eff) → Step s s'
  | stopAudioAsync (s : Handler) (t : Bool) : Step s (stopAudioRecordingAsync s t).1
  | stopVideoAsync (s : Handler) (t : Bool) : Step s (stopVideoRecordingAsync s t).1
  | captureTick (s : Handler) : Step s (frameCaptureTick s).1

/-- A handler state reachable from the freshly connected handler. -/
def Reachable (s : Handler) : Prop :=
  Relation.ReflTransGen Step initState s

/-- The invariant maintained by every reachable handler state: the DataChannel
stays bound, an unknown video resolution implies that neither frame capture nor
video recording is enabled, and enabled video recording implies a successfully
opened writer. -/
def Inv (s : Handler) : Prop :=
  s.hasChannel = true ∧
  (s.videoResolution = none →
    s.frameCaptureEnabled = false ∧ s.videoRecordingEnabled = false) ∧
  (s.videoRecordingEnabled = true → ∃ w, s.videoWriter = some w ∧ w.opened = true)

/-- Whether an event awaits or force-cancels the frame-save worker task. -/
def isFrameSaveStop : WEvent → Bool
  | .awaitWorker .frameSave => true
  | .cancelWorker .frameSave => true
  | _ => false

/-! ### Concrete inputs and states used below -/

/-- The control message `{"action": "start_record"}`. -/
def msgStartRecord : TextMsg := .json (.obj [("action", .str "start_record")])

/-- The control message `{"action": "start_video_recording"}`. -/
def msgStartVideo : TextMsg := .json (.obj [("action", .str "start_video_recording")])

/-- A 640x480 video frame. -/
def f640 : VideoFrame := ⟨640, 480, 0⟩

/-- The handler right after a `start_record` control message. -/
def sRecording : Handler := (startAudioRecording initState 0).1

/-- The handler after `start_record` followed by the async part of
`stop_record`: it is replaying. -/
def sReplaying : Handler := (stopAudioRecordingAsync sRecording false).1

/-- The handler after the first video frame arrived (resolution known). -/
def sHasVideo : Handler := (videoReceive initState f640).1

/-- The handler after the first video frame and a `start_video_recording`
control message whose writer opened. -/
def sVidRec : Handler := (startVideoRecording sHasVideo 5 true).1

/-- A recording handler whose bounded recording queues are both full
(capacity 1, one item queued). -/
def sFullQ : Handler :=
  { initState with
      mode := .RECORDING
      videoRecordingEnabled := true
      videoWriter := some ⟨true, 640, 480⟩
      videoRecordingQueue := ⟨1, [⟨640, 480, 0⟩]⟩
      audioRecordingQueue := ⟨1, [[0]]⟩ }

/-! ### Field behaviour of the individual operations -/

lemma videoReceive_fields (s : Handler) (f : VideoFrame) :
    ((videoReceive s f).1).hasChannel = s.hasChannel ∧
    ((videoReceive s f).1).mode = s.mode ∧
    ((videoReceive s f).1).frameCaptureEnabled = s.frameCaptureEnabled ∧
    ((videoReceive s f).1).videoRecordingEnabled = s.videoRecordingEnabled ∧
    ((videoReceive s f).1).videoWriter = s.videoWriter ∧
    ((videoReceive s f).1).videoResolution = some (f.width, f.height) := by
  simp only [videoReceive]
  repeat' split
  all_goals simp_all

lemma audioReceive_fields (s : Handler) (sr : Nat) (a : AudioData) :
    ((audioReceive s sr a).1).hasChannel = s.hasChannel ∧
    ((audioReceive s sr a).1).mode = s.mode ∧
    ((audioReceive s sr a).1).frameCaptureEnabled = s.frameCaptureEnabled ∧
    ((audioReceive s sr a).1).videoRecordingEnabled = s.videoRecordingEnabled ∧
    ((audioReceive s sr a).1).videoWriter = s.videoWriter ∧
    ((audioReceive s sr a).1).videoResolution = s.videoResolution := by
  simp only [audioReceive]
  repeat' split
  all_goals simp_all

lemma emit_fields (s : Handler) :
    ((emit s).1).hasChannel = s.hasChannel ∧
    ((emit s).1).frameCaptureEnabled = s.frameCaptureEnabled ∧
    ((emit s).1).videoRecordingEnabled = s.videoRecordingEnabled ∧
    ((emit s).1).videoWriter = s.videoWriter ∧
    ((emit s).1).videoResolution = s.videoResolution ∧
    (((emit s).1).mode = s.mode ∨ (s.mode = .REPLAYING ∧ ((emit s).1).mode = .LIVE)) := by
  simp only [emit]
  repeat' split
  all_goals simp_all

lemma startAudioRecording_fields (s : Handler) (now : Nat) :
    ((startAudioRecording s now).1).hasChannel = s.hasChannel ∧
    ((startAudioRecording s now).1).mode = .RECORDING ∧
    ((startAudioRecording s now).1).frameCaptureEnabled = s.frameCaptureEnabled ∧
    ((startAudioRecording s now).1).videoRecordingEnabled = s.videoRecordingEnabled ∧
    ((startAudioRecording s now).1).videoWriter = s.videoWriter ∧
    ((startAudioRecording s now).1).videoResolution = s.videoResolution := by
  simp [startAudioRecording]

lemma stopAudioRecording_state (s : Handler) :
    (stopAudioRecording s).1 = s := by
  simp only [stopAudioRecording]
  split <;> rfl

lemma stopAudioRecordingAsync_fields (s : Handler) (t : Bool) :
    ((stopAudioRecordingAsync s t).1).hasChannel = s.hasChannel ∧
    ((stopAudioRecordingAsync s t).1).frameCaptureEnabled = s.frameCaptureEnabled ∧
    ((stopAudioRecordingAsync s t).1).videoRecordingEnabled = s.videoRecordingEnabled ∧
    ((stopAudioRecordingAsync s t).1).videoWriter = s.videoWriter ∧
    ((stopAudioRecordingAsync s t).1).videoResolution = s.videoResolution ∧
    (((stopAudioRecordingAsync s t).1).mode = s.mode ∨
      (s.mode = .RECORDING ∧ ((stopAudioRecordingAsync s t).1).mode = .REPLAYING)) := by
  simp only [stopAudioRecordingAsync]
  repeat' split
  all_goals simp_all

lemma startFrameCapture_fields (s : Handler) (now : Nat) :
    ((startFrameCapture s now).1).hasChannel = s.hasChannel ∧
    ((startFrameCapture s now).1).mode = s.mode ∧
    ((startFrameCapture s now).1).videoRecordingEnabled = s.videoRecordingEnabled ∧
    ((startFrameCapture s now).1).videoWriter = s.videoWriter ∧
    ((startFrameCapture s now).1).videoResolution = s.videoResolution ∧
    (s.videoResolution = none → (startFrameCapture s now).1 = s) := by
  simp only [startFrameCapture]
  repeat' split
  all_goals simp_all

lemma stopFrameCapture_fields (s : Handler) :
    ((stopFrameCapture s).1).hasChannel = s.hasChannel ∧
    ((stopFrameCapture s).1).mode = s.mode ∧
    ((stopFrameCapture s).1).videoRecordingEnabled = s.videoRecordingEnabled ∧
    ((stopFrameCapture s).1).videoWriter = s.videoWriter ∧
    ((stopFrameCapture s).1).videoResolution = s.videoResolution ∧
    (((stopFrameCapture s).1).frameCaptureEnabled = false ∨ (stopFrameCapture s).1 = s) := by
  simp only [stopFrameCapture]
  split <;> simp_all

lemma frameCaptureTick_fields (s : Handler) :
    ((frameCaptureTick s).1).hasChannel = s.hasChannel ∧
    ((frameCaptureTick s).1).mode = s.mode ∧
    ((frameCaptureTick s).1).frameCaptureEnabled = s.frameCaptureEnabled ∧
    ((frameCaptureTick s).1).videoRecordingEnabled = s.videoRecordingEnabled ∧
    ((frameCaptureTick s).1).videoWriter = s.videoWriter ∧
    ((frameCaptureTick s).1).videoResolution = s.videoResolution := by
  simp only [frameCaptureTick]
  repeat' split
  all_goals simp_all

lemma startVideoRecording_fields (s : Handler) (now : Nat) (openOk : Bool) :
    ((startVideoRecording s now openOk).1).hasChannel = s.hasChannel ∧
    ((startVideoRecording s now openOk).1).mode = s.mode ∧
    ((startVideoRecording s now openOk).1).frameCaptureEnabled = s.frameCaptureEnabled ∧
    ((startVideoRecording s now openOk).1).videoResolution = s.videoResolution ∧
    (s.videoResolution = none → (startVideoRecording s now openOk).1 = s) ∧
    (s.videoRecordingEnabled = true → (startVideoRecording s now openOk).1 = s) ∧
    (s.videoRecordingEnabled = false →
      ((startVideoRecording s now openOk).1).videoRecordingEnabled = true →
      ∃ w, ((startVideoRecording s now openOk).1).videoWriter = some w ∧ w.opened = true) := by
  simp only [startVideoRecording]
  repeat' split
  all_goals simp_all

lemma stopVideoRecordingAsync_fields (s : Handler) (t : Bool) :
    ((stopVideoRecordingAsync s t).1).hasChannel = s.hasChannel ∧
    ((stopVideoRecordingAsync s t).1).mode = s.mode ∧
    ((stopVideoRecordingAsync s t).1).frameCaptureEnabled = s.frameCaptureEnabled ∧
    ((stopVideoRecordingAsync s t).1).videoResolution = s.videoResolution ∧
    (((stopVideoRecordingAsync s t).1).videoRecordingEnabled = false ∨
      (stopVideoRecordingAsync s t).1 = s) := by
  simp only [stopVideoRecordingAsync]
  repeat' split
  all_goals simp_all

lemma stopVideoRecording_state (s : Handler) :
    (stopVideoRecording s).1 = s := by
  simp only [stopVideoRecording]
  split <;> rfl

/-! ### Invariants of reachable states -/

lemma inv_init : Inv initState := by
  refine ⟨rfl, fun _ => ⟨rfl, rfl⟩, fun h => ?_⟩
  simp [initState] at h

lemma inv_of_fields {s s' : Handler}
    (hc : s'.hasChannel = s.hasChannel)
    (hfc : s'.frameCaptureEnabled = s.frameCaptureEnabled)
    (hvr : s'.videoRecordingEnabled = s.videoRecordingEnabled)
    (hw : s'.videoWriter = s.videoWriter)
    (hres : s'.videoResolution = s.videoResolution)
    (h : Inv s) : Inv s' := by
  refine ⟨hc.trans h.1, ?_, ?_⟩
  · intro h0
    rw [hres] at h0
    rw [hfc, hvr]
    exact h.2.1 h0
  · intro he
    rw [hvr] at he
    rw [hw]
    exact h.2.2 he

lemma inv_videoReceive {s : Handler} (f : VideoFrame) (h : Inv s) :
    Inv (videoReceive s f).1 := by
  obtain ⟨hc, hm, hfc, hvr, hw, hres⟩ := videoReceive_fields s f
  refine ⟨hc.trans h.1, ?_, ?_⟩
  · intro h0
    rw [hres] at h0
    exact absurd h0 (by simp)
  · intro he
    rw [hvr] at he
    rw [hw]
    exact h.2.2 he

lemma inv_audioReceive {s : Handler} (sr : Nat) (a : AudioData) (h : Inv s) :
    Inv (audioReceive s sr a).1 := by
  obtain ⟨hc, hm, hfc, hvr, hw, hres⟩ := audioReceive_fields s sr a
  exact inv_of_fields hc hfc hvr hw hres h

lemma inv_emit {s : Handler} (h : Inv s) : Inv (emit s).1 := by
  obtain ⟨hc, hfc, hvr, hw, hres, hm⟩ := emit_fields s
  exact inv_of_fields hc hfc hvr hw hres h

lemma inv_startAudioRecording {s : Handler} (now : Nat) (h : Inv s) :
    Inv (startAudioRecording s now).1 := by
  obtain ⟨hc, hm, hfc, hvr, hw, hres⟩ := startAudioRecording_fields s now
  exact inv_of_fields hc hfc hvr hw hres h

lemma inv_stopAudioRecordingAsync {s : Handler} (t : Bool) (h : Inv s) :
    Inv (stopAudioRecordingAsync s t).1 := by
  obtain ⟨hc, hfc, hvr, hw, hres, hm⟩ := stopAudioRecordingAsync_fields s t
  exact inv_of_fields hc hfc hvr hw hres h

lemma inv_startFrameCapture {s : Handler} (now : Nat) (h : Inv s) :
    Inv (startFrameCapture s now).1 := by
  obtain ⟨hc, hm, hvr, hw, hres, hnone⟩ := startFrameCapture_fields s now
  by_cases hr : s.videoResolution = none
  · rw [hnone hr]
    exact h
  · refine ⟨hc.trans h.1, ?_, ?_⟩
    · intro h0
      rw [hres] at h0
      exact absurd h0 hr
    · intro he
      rw [hvr] at he
      rw [hw]
      exact h.2.2 he

lemma inv_stopFrameCapture {s : Handler} (h : Inv s) :
    Inv (stopFrameCapture s).1 := by
  obtain ⟨hc, hm, hvr, hw, hres, hdisj⟩ := stopFrameCapture_fields s
  rcases hdisj with hoff | hsame
  · refine ⟨hc.trans h.1, ?_, ?_⟩
    · intro h0
      rw [hres] at h0
      exact ⟨hoff, hvr.trans (h.2.1 h0).2⟩
    · intro he
      rw [hvr] at he
      rw [hw]
      exact h.2.2 he
  · rw [hsame]
    exact h

lemma inv_frameCaptureTick {s : Handler} (h : Inv s) :
    Inv (frameCaptureTick s).1 := by
  obtain ⟨hc, hm, hfc, hvr, hw, hres⟩ := frameCaptureTick_fields s
  exact inv_of_fields hc hfc hvr hw hres h

lemma inv_startVideoRecording {s : Handler} (now : Nat) (openOk : Bool) (h : Inv s) :
    Inv (startVideoRecording s now openOk).1 := by
  obtain ⟨hc, hm, hfc, hres, hnone, hdup, hopen⟩ := startVideoRecording_fields s now openOk
  by_cases hr : s.videoResolution = none
  · rw [hnone hr]
    exact h
  · by_cases he : s.videoRecordingEnabled = true
    · rw [hdup he]
      exact h
    · refine ⟨hc.trans h.1, ?_, ?_⟩
      · intro h0
        rw [hres] at h0
        exact absurd h0 hr
      · exact hopen (Bool.not_eq_true _ ▸ he)

lemma inv_stopVideoRecordingAsync {s : Handler} (t : Bool) (h : Inv s) :
    Inv (stopVideoRecordingAsync s t).1 := by
  obtain ⟨hc, hm, hfc, hres, hdisj⟩ := stopVideoRecordingAsync_fields s t
  rcases hdisj with hoff | hsame
  · refine ⟨hc.trans h.1, ?_, ?_⟩
    · intro h0
      rw [hres] at h0
      exact ⟨hfc.trans (h.2.1 h0).1, hoff⟩
    · intro he
      rw [hoff] at he
      exact absurd he (by simp)
  · rw [hsame]
    exact h

lemma inv_dispatchAction {s : Handler} (action : Option Json) (now : Nat)
    (openOk : Bool) (h : Inv s) : Inv (dispatchAction s action now openOk).1 := by
  unfold dispatchAction
  repeat' split
  · exact inv_startAudioRecording now h
  · rw [stopAudioRecording_state]
    exact h
  · exact inv_startFrameCapture now h
  · exact inv_stopFrameCapture h
  · exact inv_startVideoRecording now openOk h
  · rw [stopVideoRecording_state]
    exact h
  · exact h
  · exact h

/-- Inversion of a normal `text_receive` return: the state is either untouched
(non-JSON input) or the result of dispatching the parsed action. -/
lemma textReceive_ok_state {s s' : Handler} {eff : Eff} {m : TextMsg} {now : Nat}
    {openOk : Bool} (ht : textReceive s m now openOk = .ok (s', eff)) :
    s' = s ∨ ∃ action, s' = (dispatchAction s action now openOk).1 := by
  cases m with
  | notJson raw =>
    simp only [textReceive, Except.ok.injEq, Prod.mk.injEq] at ht
    exact Or.inl ht.1.symm
  | json j =>
    simp only [textReceive] at ht
    cases hg : j.getField "action" with
    | error e =>
      rw [hg] at ht
      simp at ht
    | ok action =>
      rw [hg] at ht
      simp only [Except.ok.injEq, Prod.mk.injEq] at ht
      exact Or.inr ⟨action, ht.1.symm⟩

lemma inv_step {s s' : Handler} (h : Inv s) (st : Step s s') : Inv s' := by
  cases st with
  | videoRecv f => exact inv_videoReceive f h
  | audioRecv sr a => exact inv_audioReceive sr a h
  | emitStep => exact inv_emit h
  | ctrl m now openOk s2 eff ht =>
    rcases textReceive_ok_state ht with hsame | ⟨action, hdisp⟩
    · rw [hsame]
      exact h
    · rw [hdisp]
      exact inv_dispatchAction action now openOk h
  | stopAudioAsync t => exact inv_stopAudioRecordingAsync t h
  | stopVideoAsync t => exact inv_stopVideoRecordingAsync t h
  | captureTick => exact inv_frameCaptureTick h

lemma reachable_inv {s : Handler} (h : Reachable s) : Inv s := by
  induction h with
  | refl => exact inv_init
  | tail _ st ih => exact inv_step ih st

/-- A control-message step built from a normal `text_receive` return. -/
lemma stepCtrl {s : Handler} (m : TextMsg) (now : Nat) (openOk : Bool)
    {p : Handler × Eff} (h : textReceive s m now openOk = Except.ok p) :
    Step s p.1 :=
  Step.ctrl s m now openOk p.1 p.2 (by rw [h])

/-- Dispatching one control message either leaves the mode alone or sets it to
RECORDING (via `start_record`). -/
lemma dispatchAction_mode (s : Handler) (action : Option Json) (now : Nat)
    (openOk : Bool) :
    ((dispatchAction s action now openOk).1).mode = s.mode ∨
    ((dispatchAction s action now openOk).1).mode = .RECORDING := by
  unfold dispatchAction
  repeat' split
  · exact Or.inr (startAudioRecording_fields s now).2.1
  · rw [stopAudioRecording_state]
    exact Or.inl rfl
  · exact Or.inl (startFrameCapture_fields s now).2.1
  · exact Or.inl (stopFrameCapture_fields s).2.1
  · exact Or.inl (startVideoRecording_fields s now openOk).2.1
  · rw [stopVideoRecording_state]
    exact Or.inl rfl
  · exact Or.inl rfl
  · exact Or.inl rfl

/-- While video recording is enabled, no control message replaces the writer. -/
lemma dispatchAction_writer (s : Handler) (action : Option Json) (now : Nat)
    (openOk : Bool) (he : s.videoRecordingEnabled = true) :
    ((dispatchAction s action now openOk).1).videoWriter = s.videoWriter := by
  unfold dispatchAction
  repeat' split
  · exact (startAudioRecording_fields s now).2.2.2.2.1
  · rw [stopAudioRecording_state]
  · exact (startFrameCapture_fields s now).2.2.2.1
  · exact (stopFrameCapture_fields s).2.2.2.1
  · rw [(startVideoRecording_fields s now openOk).2.2.2.2.2.1 he]
  · rw [stopVideoRecording_state]
  · rfl
  · rfl

lemma BQueue.putNowait_of_full {q : BQueue α} {a : α} (h : q.isFull = true) :
    q.putNowait a = none := by
  simp [BQueue.putNowait, h]

lemma BQueue.putNowait_items {q q' : BQueue α} {a : α}
    (h : q.putNowait a = some q') : q'.items = q.items ++ [a] := by
  unfold BQueue.putNowait at h
  split at h
  · exact absurd h (by simp)
  · cases h
    rfl

lemma enqueueAll_no_drop {q : BQueue α} {rs : List α}
    (h : (enqueueAll q rs).2 = 0) : (enqueueAll q rs).1.items = q.items ++ rs := by
  induction rs generalizing q with
  | nil => simp [enqueueAll]
  | cons a rest ih =>
    unfold enqueueAll at h ⊢
    cases hput : q.putNowait a with
    | some q' =>
      rw [hput] at h
      dsimp only at h ⊢
      rw [ih h, BQueue.putNowait_items hput]
      simp
    | none =>
      rw [hput] at h
      dsimp only at h
      simp at h

lemma enqueueAll_length (q : BQueue α) (rs : List α) :
    (enqueueAll q rs).1.items.length ≤ q.items.length + rs.length := by
  induction rs generalizing q with
  | nil => simp [enqueueAll]
  | cons a rest ih =>
    unfold enqueueAll
    cases hput : q.putNowait a with
    | some q' =>
      have hlen : q'.items.length = q.items.length + 1 := by
        rw [BQueue.putNowait_items hput]
        simp
      have := ih q'
      simp only [List.length_cons]
      omega
    | none =>
      have := ih q
      simp only [List.length_cons]
      omega

/-- The batched drain loop writes exactly the sequence of drained frames, each
fitted to the (valid) target resolution. -/
lemma videoWorkerRun_eq (t : Nat × Nat) (h1 : t.1 ≠ 0) (h2 : t.2 ≠ 0) :
    ∀ l : List VideoFrame, videoWorkerRun t l = l.map (fitTo t) := by
  have main : ∀ (n : Nat) (l : List VideoFrame), l.length ≤ n →
      videoWorkerRun t l = l.map (fitTo t) := by
    intro n
    induction n with
    | zero =>
      intro l hl
      have : l = [] := List.eq_nil_of_length_eq_zero (Nat.le_zero.mp hl)
      subst this
      simp [videoWorkerRun]
    | succ n ih =>
      intro l hl
      match l with
      | [] => simp [videoWorkerRun]
      | a :: rest =>
        rw [videoWorkerRun, writeFramesSync]
        rw [if_neg (by tauto)]
        rw [ih ((a :: rest).drop VIDEO_BATCH_SIZE)
          (by
            simp only [List.length_drop, List.length_cons, VIDEO_BATCH_SIZE] at hl ⊢
            omega)]
        simp only [List.map_take, List.map_drop]
        exact List.take_append_drop _ _
  intro l
  exact main l.length l le_rfl

/-! ### Support lemmas about teardown events -/

lemma noFrameSaveStop_stopFrameCapture (s : Handler) :
    ((stopFrameCapture s).2.events.all (fun e => !isFrameSaveStop e)) = true := by
  unfold stopFrameCapture
  repeat' split
  all_goals rfl

lemma noFrameSaveStop_stopVideoAsync (s : Handler) (t : Bool) :
    ((stopVideoRecordingAsync s t).2.events.all (fun e => !isFrameSaveStop e)) = true := by
  unfold stopVideoRecordingAsync
  dsimp only
  repeat' split
  all_goals simp [isFrameSaveStop, Eff.nil]

lemma noFrameSaveStop_stopAudioAsync (s : Handler) (t : Bool) :
    ((stopAudioRecordingAsync s t).2.events.all (fun e => !isFrameSaveStop e)) = true := by
  unfold stopAudioRecordingAsync
  repeat' split
  all_goals rfl

lemma shutdownAsyncWorkers_events (s : Handler) (iters : Nat) :
    (shutdownAsyncWorkers s iters).2.1.events = [] := by
  unfold shutdownAsyncWorkers
  dsimp only
  repeat' split
  all_goals rfl

lemma shutdownAsyncWorkers_workers (s : Handler) (iters : Nat) :
    (shutdownAsyncWorkers s iters).1.videoRecordingWorker = s.videoRecordingWorker ∧
    (shutdownAsyncWorkers s iters).1.audioRecordingWorker = s.audioRecordingWorker ∧
    (shutdownAsyncWorkers s iters).1.frameSaveWorker = s.frameSaveWorker := by
  unfold shutdownAsyncWorkers
  dsimp only
  repeat' split
  all_goals exact ⟨rfl, rfl, rfl⟩

lemma stopFrameCapture_frameSaveWorker (s : Handler) :
    ((stopFrameCapture s).1).frameSaveWorker = s.frameSaveWorker := by
  unfold stopFrameCapture
  split
  all_goals rfl

lemma stopVideoRecordingAsync_frameSaveWorker (s : Handler) (t : Bool) :
    ((stopVideoRecordingAsync s t).1).frameSaveWorker = s.frameSaveWorker := by
  unfold stopVideoRecordingAsync
  dsimp only
  repeat' split
  all_goals rfl

lemma stopAudioRecordingAsync_frameSaveWorker (s : Handler) (t : Bool) :
    ((stopAudioRecordingAsync s t).1).frameSaveWorker = s.frameSaveWorker := by
  unfold stopAudioRecordingAsync
  split
  all_goals rfl

/-! ### Reachability of the concrete states -/

lemma reachable_sRecording : Reachable sRecording :=
  Relation.ReflTransGen.tail Relation.ReflTransGen.refl
    (Step.ctrl initState msgStartRecord 0 true sRecording _ rfl)

lemma reachable_sReplaying : Reachable sReplaying :=
  Relation.ReflTransGen.tail reachable_sRecording
    (Step.stopAudioAsync sRecording false)

lemma reachable_sVidRec : Reachable sVidRec :=
  Relation.ReflTransGen.tail
    (Relation.ReflTransGen.tail Relation.ReflTransGen.refl
      (Step.videoRecv initState f640))
    (Step.ctrl sHasVideo msgStartVideo 5 true sVidRec _ rfl)

/-! ## Claims -/

/-- C1: the claim says `shutdown` awaits every still-running worker task with a
bounded wait followed by forced cancellation.  The code does not: for every
state, wall clock and timeout outcome, `_shutdown_async_workers` performs no
await/cancel event at all and leaves all three worker-task fields untouched,
and the full `shutdown` sequence never awaits or cancels the frame-save worker
and leaves its task field exactly as it was — a still-running frame-save worker
is simply abandoned. -/
theorem C1_shutdown_never_stops_workers :
    ∀ (s : Handler) (timedOut : Bool) (iters : Nat),
      (shutdownAsyncWorkers s iters).2.1.events = [] ∧
      (shutdownAsyncWorkers s iters).1.videoRecordingWorker = s.videoRecordingWorker ∧
      (shutdownAsyncWorkers s iters).1.audioRecordingWorker = s.audioRecordingWorker ∧
      (shutdownAsyncWorkers s iters).1.frameSaveWorker = s.frameSaveWorker ∧
      ((shutdownHandler s timedOut iters).2.1.events.all
        (fun e => !isFrameSaveStop e)) = true ∧
      (shutdownHandler s timedOut iters).1.frameSaveWorker = s.frameSaveWorker := by
  intro s timedOut iters
  refine ⟨shutdownAsyncWorkers_events s iters,
    (shutdownAsyncWorkers_workers s iters).1,
    (shutdownAsyncWorkers_workers s iters).2.1,
    (shutdownAsyncWorkers_workers s iters).2.2, ?_, ?_⟩
  · unfold shutdownHandler
    dsimp only
    simp only [Eff.app, List.all_append]
    repeat' split
    all_goals
      simp [noFrameSaveStop_stopFrameCapture, noFrameSaveStop_stopVideoAsync,
        noFrameSaveStop_stopAudioAsync, shutdownAsyncWorkers_events, Eff.nil]
  · unfold shutdownHandler
    dsimp only
    rw [(shutdownAsyncWorkers_workers _ iters).2.2]
    repeat' split
    all_goals
      simp [stopAudioRecordingAsync_frameSaveWorker,
        stopVideoRecordingAsync_frameSaveWorker, stopFrameCapture_frameSaveWorker]

/-- C3 counterexample: the message `"[]"` is valid JSON, so `json.loads`
succeeds, but `data.get("action")` on a list raises an `AttributeError` that
`text_receive` does not catch (its only handler is for `JSONDecodeError`), so
an exception does propagate to the transport layer. -/
theorem C3_counterexample :
    textReceive initState (.json (.arr [])) 0 true = .error .attributeError := rfl

/-- C3 (amended): `text_receive` returns normally for every non-JSON message
(the `JSONDecodeError` is caught and logged) and for every message that parses
to a JSON object, whatever its `action` field holds; only a valid-JSON message
whose top-level value is not an object escapes with an `AttributeError`. -/
theorem C3_textReceive_no_exception :
    ∀ (s : Handler) (raw : String) (kvs : List (String × Json)) (now : Nat)
      (openOk : Bool),
      (∃ r, textReceive s (.notJson raw) now openOk = .ok r) ∧
      (∃ r, textReceive s (.json (.obj kvs)) now openOk = .ok r) := by
  intro s raw kvs now openOk
  exact ⟨⟨_, rfl⟩, ⟨_, rfl⟩⟩

/-- C4: `FrameSaveWorker._save_frame_sync` computes the per-frame name
`frame_{timestamp}_{seq:04d}.png` but only logs it — the actual save is
`image.save(filepath)` with the one fixed path created by
`start_frame_capture`.  For a session with two cadence ticks, both frames are
written to the same single file (1 distinct path, not 2), even though the
logged names do carry strictly increasing sequence numbers. -/
theorem C4_frames_overwrite_single_file :
    (frameSaveRun [⟨640, 480, 0⟩, ⟨640, 480, 1⟩] 0 200 (frameCaptureFilePath 100)).1.map
        (fun r => r.savedPath) =
      [frameCaptureFilePath 100, frameCaptureFilePath 100] ∧
    ((frameSaveRun [⟨640, 480, 0⟩, ⟨640, 480, 1⟩] 0 200
        (frameCaptureFilePath 100)).1.map (fun r => r.savedPath)).dedup.length = 1 ∧
    (frameSaveRun [⟨640, 480, 0⟩, ⟨640, 480, 1⟩] 0 200 (frameCaptureFilePath 100)).1.map
        (fun r => frameLogFilename r.loggedTs r.loggedSeq) =
      [frameLogFilename 200 0, frameLogFilename 200 1] ∧
    (1 : Nat) ≠ 2 := by
  refine ⟨rfl, by decide, rfl, by decide⟩

/-- C8 counterexample: `stop_audio_recording` called while not RECORDING logs
only the *info*-level "received stop-record request" line — no warning-level
log entry is produced, contrary to the claim that "a warning is logged". -/
theorem C8_counterexample :
    initState.mode ≠ .RECORDING ∧
    (stopAudioRecording initState).2.1.logs =
      [⟨.info, .receivedStopRecordRequest⟩] ∧
    ((stopAudioRecording initState).2.1.logs.all
      (fun e => !(decide (e.level = LogLevel.warning)))) = true ∧
    (stopAudioRecording initState).1 = initState := by
  refine ⟨by decide, rfl, by decide, rfl⟩

/-- C8 (amended): calling `stop_record` while not RECORDING is a no-op — the
state is unchanged, no async stop task is spawned (so no file is written and no
worker is started or stopped), nothing is sent, and the only log line is the
*info*-level request log (not a warning); no exception is raised. -/
theorem C8_stop_record_noop :
    ∀ s : Handler, s.mode ≠ .RECORDING →
      (stopAudioRecording s).1 = s ∧
      (stopAudioRecording s).2.2 = false ∧
      (stopAudioRecording s).2.1.logs = [⟨.info, .receivedStopRecordRequest⟩] ∧
      (stopAudioRecording s).2.1.sends = [] ∧
      (stopAudioRecording s).2.1.events = [] := by
  intro s h
  unfold stopAudioRecording
  rw [if_neg h]
  exact ⟨rfl, rfl, rfl, rfl, rfl⟩

/-- C8 witness: the no-op at a concrete non-RECORDING (replaying) handler. -/
theorem C8_stop_record_noop_witness :
    (stopAudioRecording { initState with mode := .REPLAYING }).1 =
      { initState with mode := .REPLAYING } ∧
    (stopAudioRecording { initState with mode := .REPLAYING }).2.2 = false ∧
    (stopAudioRecording { initState with mode := .REPLAYING }).2.1.logs =
      [⟨.info, .receivedStopRecordRequest⟩] ∧
    (stopAudioRecording { initState with mode := .REPLAYING }).2.1.sends = [] ∧
    (stopAudioRecording { initState with mode := .REPLAYING }).2.1.events = [] :=
  C8_stop_record_noop { initState with mode := .REPLAYING } (by decide)

/-- C9: in every reachable state whose video resolution is still unknown, both
`start_frame_capture` and `start_video_recording` leave the handler state
completely unchanged (no flag set, no worker spawned, no writer or file
created) and send the client-visible "not ready" status message. -/
theorem C9_not_ready_rejected :
    ∀ (s : Handler) (now : Nat) (openOk : Bool),
      Reachable s → s.videoResolution = none →
      (startFrameCapture s now).1 = s ∧
      (startFrameCapture s now).2.sends = [⟨.frameCaptureStatus, .notReadyRetry⟩] ∧
      (startFrameCapture s now).2.events = [] ∧
      (startVideoRecording s now openOk).1 = s ∧
      (startVideoRecording s now openOk).2.sends =
        [⟨.videoRecordingStatus, .notReadyRetry⟩] ∧
      (startVideoRecording s now openOk).2.events = [] := by
  intro s now openOk hr hres
  have hinv := reachable_inv hr
  have hfc := (hinv.2.1 hres).1
  have hvr := (hinv.2.1 hres).2
  have hch := hinv.1
  refine ⟨?_, ?_, ?_, ?_, ?_, ?_⟩
  all_goals simp [startFrameCapture, startVideoRecording, hfc, hvr, hres, hch]

/-- C9 witness: the freshly connected handler has no resolution yet and both
start requests are rejected there. -/
theorem C9_not_ready_rejected_witness :
    (startFrameCapture initState 7).1 = initState ∧
    (startFrameCapture initState 7).2.sends =
      [⟨.frameCaptureStatus, .notReadyRetry⟩] ∧
    (startFrameCapture initState 7).2.events = [] ∧
    (startVideoRecording initState 7 true).1 = initState ∧
    (startVideoRecording initState 7 true).2.sends =
      [⟨.videoRecordingStatus, .notReadyRetry⟩] ∧
    (startVideoRecording initState 7 true).2.events = [] :=
  C9_not_ready_rejected initState 7 true Relation.ReflTransGen.refl rfl

/-- C2 counterexample: the claim forbids any transition beside the three listed
ones, in particular REPLAYING → RECORDING.  But `start_audio_recording` sets
the mode unconditionally, so a `start_record` control message received in a
reachable REPLAYING state moves the mode straight to RECORDING. -/
theorem C2_counterexample :
    Reachable sReplaying ∧ sReplaying.mode = .REPLAYING ∧
    Step sReplaying (startAudioRecording sReplaying 1).1 ∧
    ((startAudioRecording sReplaying 1).1).mode = .RECORDING :=
  ⟨reachable_sReplaying, rfl,
    Step.ctrl sReplaying msgStartRecord 1 true (startAudioRecording sReplaying 1).1 _ rfl,
    rfl⟩

/-- C2 (amended): the mode is always one of the three `StreamMode` values, and
the only mode transitions any step can perform are LIVE → RECORDING
(`start_record`), REPLAYING → RECORDING (`start_record` while replaying, the
transition the original claim ruled out), RECORDING → REPLAYING
(`stop_record`), and REPLAYING → LIVE (replay buffer exhausted in `emit`). -/
theorem C2_mode_transitions :
    ∀ s s' : Handler, Step s s' → s.mode ≠ s'.mode →
      (s.mode = .LIVE ∧ s'.mode = .RECORDING) ∨
      (s.mode = .REPLAYING ∧ s'.mode = .RECORDING) ∨
      (s.mode = .RECORDING ∧ s'.mode = .REPLAYING) ∨
      (s.mode = .REPLAYING ∧ s'.mode = .LIVE) := by
  intro s s' st hne
  cases st with
  | videoRecv f => exact absurd ((videoReceive_fields s f).2.1).symm hne
  | audioRecv sr a => exact absurd ((audioReceive_fields s sr a).2.1).symm hne
  | emitStep =>
    rcases (emit_fields s).2.2.2.2.2 with heq | ⟨h1, h2⟩
    · exact absurd heq.symm hne
    · exact Or.inr (Or.inr (Or.inr ⟨h1, h2⟩))
  | ctrl m now openOk s2 eff ht =>
    rcases textReceive_ok_state ht with hsame | ⟨action, hd⟩
    · rw [hsame] at hne
      exact absurd rfl hne
    · rcases dispatchAction_mode s action now openOk with heq | hrec
      · rw [hd] at hne
        exact absurd heq.symm hne
      · cases hm : s.mode with
        | LIVE => exact Or.inl ⟨rfl, by rw [hd]; exact hrec⟩
        | RECORDING =>
          rw [hd] at hne
          exact absurd (hm.trans hrec.symm) hne
        | REPLAYING => exact Or.inr (Or.inl ⟨rfl, by rw [hd]; exact hrec⟩)
  | stopAudioAsync t =>
    rcases (stopAudioRecordingAsync_fields s t).2.2.2.2.2 with heq | ⟨h1, h2⟩
    · exact absurd heq.symm hne
    · exact Or.inr (Or.inr (Or.inl ⟨h1, h2⟩))
  | stopVideoAsync t => exact absurd ((stopVideoRecordingAsync_fields s t).2.1).symm hne
  | captureTick => exact absurd ((frameCaptureTick_fields s).2.1).symm hne

/-- C2 witness: the LIVE → RECORDING transition taken by a concrete
`start_record` step out of the fresh handler. -/
theorem C2_mode_transitions_witness :
    (initState.mode = .LIVE ∧ sRecording.mode = .RECORDING) ∨
    (initState.mode = .REPLAYING ∧ sRecording.mode = .RECORDING) ∨
    (initState.mode = .RECORDING ∧ sRecording.mode = .REPLAYING) ∨
    (initState.mode = .REPLAYING ∧ sRecording.mode = .LIVE) :=
  C2_mode_transitions initState sRecording
    (Step.ctrl initState msgStartRecord 0 true sRecording _ rfl) (by decide)

/-- C5: when the audio-recording queue never fills (zero drops), the file the
audio worker writes is exactly the concatenation of all received frames in
receipt order; and a session with zero frames creates no file, reports zero
frames, and logs the "no frames to save" warning. -/
theorem C5_audio_file_is_concat :
    (∀ (cap : Nat) (rs : List AudioData) (path : String),
        (enqueueAll ⟨cap, []⟩ rs).2 = 0 → rs ≠ [] →
        (audioWorkerRun (enqueueAll ⟨cap, []⟩ rs).1.items path).file =
          some (path, rs.flatten) ∧
        (audioWorkerRun (enqueueAll ⟨cap, []⟩ rs).1.items path).frameCount =
          rs.length) ∧
    (∀ path : String,
        (audioWorkerRun [] path).file = none ∧
        (audioWorkerRun [] path).frameCount = 0 ∧
        (audioWorkerRun [] path).logs = [⟨.warning, .audioWorkerNoFrames⟩]) := by
  constructor
  · intro cap rs path hdrop hne
    have hitems : (enqueueAll (⟨cap, []⟩ : BQueue AudioData) rs).1.items = rs := by
      simpa using enqueueAll_no_drop hdrop
    rw [hitems]
    cases rs with
    | nil => exact absurd rfl hne
    | cons a rest => exact ⟨rfl, rfl⟩
  · intro path
    exact ⟨rfl, rfl, rfl⟩

/-- C5 witness: two frames, capacity 2, no drop — the file is their
concatenation in order. -/
theorem C5_audio_file_is_concat_witness :
    (audioWorkerRun
        (enqueueAll (⟨2, []⟩ : BQueue AudioData) [[1], [2, 3]]).1.items
        "recording_1.wav").file =
      some ("recording_1.wav", ([[1], [2, 3]] : List AudioData).flatten) ∧
    (audioWorkerRun
        (enqueueAll (⟨2, []⟩ : BQueue AudioData) [[1], [2, 3]]).1.items
        "recording_1.wav").frameCount = ([[1], [2, 3]] : List AudioData).length :=
  C5_audio_file_is_concat.1 2 [[1], [2, 3]] "recording_1.wav" rfl (by decide)

/-- C6: for a recording session started at a fixed (positive) target
resolution, whatever N frames arrive, the worker writes at most N frames and
every written frame is at the target resolution (frames at another resolution
are resized by `_write_frames_sync`); and `video_receive` logs a warning when
the incoming resolution differs from the previously observed one instead of
crashing. -/
theorem C6_video_bounded_and_resized :
    (∀ (w h cap : Nat) (fs : List VideoFrame), 0 < w → 0 < h →
        (videoWorkerRun (w, h) (enqueueAll ⟨cap, []⟩ fs).1.items).length ≤
          fs.length ∧
        ((videoWorkerRun (w, h) (enqueueAll ⟨cap, []⟩ fs).1.items).all
          (fun g => decide (g.width = w) && decide (g.height = h))) = true) ∧
    (∀ (s : Handler) (f : VideoFrame) (ow oh : Nat),
        s.videoResolution = some (ow, oh) → ¬((ow, oh) = (f.width, f.height)) →
        (⟨.warning, .resolutionChanged ow oh f.width f.height⟩ : LogEntry) ∈
          (videoReceive s f).2.logs) := by
  constructor
  · intro w h cap fs hw hh
    have heq := videoWorkerRun_eq (w, h) (by omega) (by omega)
      (enqueueAll (⟨cap, []⟩ : BQueue VideoFrame) fs).1.items
    constructor
    · rw [heq, List.length_map]
      simpa using enqueueAll_length (⟨cap, []⟩ : BQueue VideoFrame) fs
    · rw [heq, List.all_eq_true]
      intro g hg
      obtain ⟨g0, hg0, rfl⟩ := List.mem_map.mp hg
      by_cases hfit : g0.width ≠ w ∨ g0.height ≠ h
      · simp [fitTo, resizeTo, hfit]
      · push_neg at hfit
        simp [fitTo, resizeTo, hfit.1, hfit.2]
  · intro s f ow oh hres hneq
    unfold videoReceive
    dsimp only
    rw [hres]
    have hcond : (some (ow, oh) : Option (Nat × Nat)) ≠ some (f.width, f.height) := by
      simpa using hneq
    rw [if_pos hcond]
    dsimp only
    simp [List.mem_append]

/-- C6 witness: a session at target 2x2 with one matching and one 4x4 frame —
at most two frames are written and all writes are at 2x2. -/
theorem C6_video_bounded_and_resized_witness :
    (videoWorkerRun (2, 2)
        (enqueueAll (⟨10, []⟩ : BQueue VideoFrame) [⟨2, 2, 0⟩, ⟨4, 4, 1⟩]).1.items).length ≤
      ([⟨2, 2, 0⟩, ⟨4, 4, 1⟩] : List VideoFrame).length ∧
    ((videoWorkerRun (2, 2)
        (enqueueAll (⟨10, []⟩ : BQueue VideoFrame) [⟨2, 2, 0⟩, ⟨4, 4, 1⟩]).1.items).all
      (fun g => decide (g.width = 2) && decide (g.height = 2))) = true :=
  C6_video_bounded_and_resized.1 2 2 10 [⟨2, 2, 0⟩, ⟨4, 4, 1⟩] (by decide) (by decide)

/-- C7: with video recording enabled and a full recording queue,
`video_receive` drops the new frame without touching the recording queue,
increments `video_dropped_frames` by exactly one, and still enqueues the frame
for the live echo; the drop counters never decrease on any receive; and the
same holds for audio `receive` in RECORDING mode with a full audio queue. -/
theorem C7_full_queue_drops_without_blocking :
    (∀ (s : Handler) (f : VideoFrame),
        s.videoRecordingEnabled = true → s.videoRecordingQueue.isFull = true →
        ((videoReceive s f).1).videoDroppedFrames = s.videoDroppedFrames + 1 ∧
        ((videoReceive s f).1).videoRecordingQueue = s.videoRecordingQueue ∧
        ((videoReceive s f).1).videoQueue = s.videoQueue ++ [f]) ∧
    (∀ (s : Handler) (f : VideoFrame),
        s.videoDroppedFrames ≤ ((videoReceive s f).1).videoDroppedFrames) ∧
    (∀ (s : Handler) (sr : Nat) (a : AudioData),
        s.mode = .RECORDING → s.audioRecordingQueue.isFull = true →
        ((audioReceive s sr a).1).audioDroppedFrames = s.audioDroppedFrames + 1 ∧
        ((audioReceive s sr a).1).audioRecordingQueue = s.audioRecordingQueue ∧
        ((audioReceive s sr a).1).audioQueue = s.audioQueue ++ [(sr, a)]) ∧
    (∀ (s : Handler) (sr : Nat) (a : AudioData),
        s.audioDroppedFrames ≤ ((audioReceive s sr a).1).audioDroppedFrames) := by
  refine ⟨?_, ?_, ?_, ?_⟩
  · intro s f hen hfull
    unfold videoReceive
    dsimp only
    repeat' split
    all_goals simp_all [BQueue.putNowait_of_full hfull]
  · intro s f
    unfold videoReceive
    dsimp only
    repeat' split
    all_goals simp_all
  · intro s sr a hmode hfull
    unfold audioReceive
    dsimp only
    repeat' split
    all_goals simp_all [BQueue.putNowait_of_full hfull]
  · intro s sr a
    unfold audioReceive
    dsimp only
    repeat' split
    all_goals simp_all

/-- C7 witness: a concrete handler with both recording queues of capacity 1
holding one item — a further video frame is dropped and counted while the live
enqueue still happens. -/
theorem C7_full_queue_drops_without_blocking_witness :
    ((videoReceive sFullQ ⟨640, 480, 7⟩).1).videoDroppedFrames =
      sFullQ.videoDroppedFrames + 1 ∧
    ((videoReceive sFullQ ⟨640, 480, 7⟩).1).videoRecordingQueue =
      sFullQ.videoRecordingQueue ∧
    ((videoReceive sFullQ ⟨640, 480, 7⟩).1).videoQueue =
      sFullQ.videoQueue ++ [⟨640, 480, 7⟩] :=
  C7_full_queue_drops_without_blocking.1 sFullQ ⟨640, 480, 7⟩ rfl rfl

/-- C10: in every reachable state, enabled video recording implies a non-`None`
successfully opened writer; no step replaces the writer while recording stays
enabled (so its target resolution stays the one fixed at recording start); and
the async stop releases the writer only after clearing the enabled flag and
after the worker task has been awaited (and force-cancelled on timeout). -/
theorem C10_writer_lifecycle :
    (∀ s : Handler, Reachable s → s.videoRecordingEnabled = true →
        ∃ w, s.videoWriter = some w ∧ w.opened = true) ∧
    (∀ s s' : Handler, Step s s' → s.videoRecordingEnabled = true →
        s'.videoRecordingEnabled = true → s'.videoWriter = s.videoWriter) ∧
    (∀ (s : Handler) (t : Bool) (w0 : VideoWriter),
        s.videoRecordingEnabled = true → s.videoRecordingWorker = true →
        s.videoWriter = some w0 →
        ((stopVideoRecordingAsync s t).1).videoRecordingEnabled = false ∧
        ((stopVideoRecordingAsync s t).1).videoWriter = none ∧
        ∃ pre, (stopVideoRecordingAsync s t).2.events =
            WEvent.disableVideoRecording :: (pre ++ [WEvent.releaseVideoWriter]) ∧
          WEvent.awaitWorker .videoRecording ∈ pre) := by
  refine ⟨?_, ?_, ?_⟩
  · intro s hr he
    exact (reachable_inv hr).2.2 he
  · intro s s' st he he'
    cases st with
    | videoRecv f => exact (videoReceive_fields s f).2.2.2.2.1
    | audioRecv sr a => exact (audioReceive_fields s sr a).2.2.2.2.1
    | emitStep => exact (emit_fields s).2.2.2.1
    | ctrl m now openOk s2 eff ht =>
      rcases textReceive_ok_state ht with hsame | ⟨action, hd⟩
      · rw [hsame]
      · rw [hd]
        exact dispatchAction_writer s action now openOk he
    | stopAudioAsync t => exact (stopAudioRecordingAsync_fields s t).2.2.2.1
    | stopVideoAsync t =>
      rcases (stopVideoRecordingAsync_fields s t).2.2.2.2 with hoff | hsame
      · rw [hoff] at he'
        exact absurd he' (by simp)
      · rw [hsame]
    | captureTick => exact (frameCaptureTick_fields s).2.2.2.2.1
  · intro s t w0 he hwk hw
    unfold stopVideoRecordingAsync
    rw [if_pos he]
    dsimp only
    rw [hw]
    cases t with
    | false =>
      refine ⟨rfl, rfl, [WEvent.awaitWorker .videoRecording], ?_, by simp⟩
      simp [hwk]
    | true =>
      refine ⟨rfl, rfl,
        [WEvent.awaitWorker .videoRecording, WEvent.cancelWorker .videoRecording],
        ?_, by simp⟩
      simp [hwk]

/-- C10 witness: the invariant at the concrete reachable state right after a
first 640x480 frame and a successful `start_video_recording`. -/
theorem C10_writer_lifecycle_witness :
    ∃ w, sVidRec.videoWriter = some w ∧ w.opened = true :=
  C10_writer_lifecycle.1 sVidRec reachable_sVidRec rfl

end UranFastRtc
